import Mathlib

/-!
Shallow embedding of `mmedit/datasets/pipelines/loading.py`.

The file models the five pipeline components of the source file —
`LoadImageFromFile`, `LoadImageFromFileList`, `LoadAlpha`,
`RandomLoadResizeBg` and `LoadMask` — as pure Lean functions over an
explicit sample-record type.  External collaborators (the storage
backend `FileClient.get`, `mmcv.imfrombytes`, `mmcv.imresize`,
`mmcv.scandir`, `numpy`'s RNG, and the mask synthesis helpers from
`mmedit.core.mask`) are passed in as oracle parameters or modelled
from their documented contracts; everything else is translated
statement by statement from the Python source.
-/

set_option autoImplicit false

namespace Loading

/-- Model of a `numpy` ndarray: a shape vector together with the
row-major flattened pixel data. -/
structure NDArray where
  shape : List Nat
  data : List Nat
  deriving DecidableEq, Repr

/-- Model of `arr.ndim`. -/
def NDArray.ndim (a : NDArray) : Nat := a.shape.length

/-- Model of `np.expand_dims(arr, axis=2)`: insert a unit axis at
position 2 of the shape; the flattened data is unchanged. -/
def NDArray.expandDims2 (a : NDArray) : NDArray :=
  { shape := a.shape.take 2 ++ 1 :: a.shape.drop 2, data := a.data }

/-- Row-major data of `arr[:, :, 0:1]` for an array of shape
`(h, w, c)`: one entry per spatial position, taken from channel 0. -/
def firstChanData (w c : Nat) (h : Nat) (d : List Nat) : List Nat :=
  (List.range (h * w)).map (fun t => d.getD (t * c) 0)

/-- Model of the slice `arr[:, :, 0:1]` on a 3-D array; on any other
rank the slice is out of this model (the source only applies it to
3-D decode results). -/
def NDArray.sliceFirstChan (a : NDArray) : NDArray :=
  match a.shape with
  | [h, w, c] => { shape := [h, w, min 1 c], data := firstChanData w c h a.data }
  | _ => a

/-- Element access `arr[i, j, k]` on a 3-D array (default 0 out of
this model's scope). -/
def NDArray.at3 (a : NDArray) (i j k : Nat) : Nat :=
  match a.shape with
  | [_, w, c] => a.data.getD (i * (w * c) + j * c + k) 0
  | _ => 0

/-- A path-like Python value: either a `str` or a `pathlib.Path`
(kept as its segments). -/
inductive PathLike where
  | str : String → PathLike
  | posix : List String → PathLike
  deriving DecidableEq, Repr

/-- Model of `str(p)` on a path-like value. -/
def PathLike.pyStr : PathLike → String
  | .str s => s
  | .posix segs => String.intercalate "/" segs

/-- Split a character list on a separator keeping empty segments, as
Python `str.split` with an explicit separator. -/
def splitChar (sep : Char) : List Char → List (List Char)
  | [] => [[]]
  | c :: cs =>
      match splitChar sep cs with
      | [] => [[]]
      | seg :: rest => if c = sep then [] :: seg :: rest else (c :: seg) :: rest

/-- Model of Python `str.strip()`. -/
def pyStrip (s : String) : String :=
  String.mk
    (((s.data.dropWhile Char.isWhitespace).reverse.dropWhile
      Char.isWhitespace).reverse)

/-- Model of `pathlib.Path(s).name`: the final non-empty path
segment. -/
def pathName (s : String) : String :=
  String.mk (((splitChar '/' s.data).filter (fun seg => seg ≠ [])).getLastD [])

/-- Model of `pathlib.Path(p).joinpath(n)` rendered as a string. -/
def pathJoin (p n : String) : String :=
  if n.data.headD ' ' = '/' then n
  else if p = "" then n
  else if p.data.getLastD ' ' = '/' then p ++ n
  else p ++ "/" ++ n

/-- Values stored in the sample record (the `results` dict). -/
inductive Val where
  | vpath : PathLike → Val
  | vstr : String → Val
  | vlist : List PathLike → Val
  | arr : Nat → NDArray → Val
  | arrList : List (Nat × NDArray) → Val
  | shape : List Nat → Val
  | shapeList : List (List Nat) → Val
  | bbox : Nat → Nat → Nat → Nat → Val
  deriving DecidableEq, Repr

/-- Model of Python `str(v)`; the source only stringifies path-like
values, the remaining constructors never reach a `str` call. -/
def Val.pyStr : Val → String
  | .vpath p => p.pyStr
  | .vstr s => s
  | _ => ""

/-- Python type name of a record value, as interpolated into the
`TypeError` message of `LoadImageFromFileList.__call__`. -/
def Val.pyType : Val → String
  | .vpath _ => "PosixPath"
  | .vstr _ => "str"
  | .vlist _ => "list"
  | .arr _ _ => "ndarray"
  | .arrList _ => "list"
  | .shape _ => "tuple"
  | .shapeList _ => "list"
  | .bbox _ _ _ _ => "tuple"

/-- The sample record: an insertion-ordered string-keyed mapping, as
a Python dict restricted to the keys this file touches. -/
def Record := List (String × Val)

/-- Lookup `results[k]`. -/
def findVal : Record → String → Option Val
  | [], _ => none
  | (k0, v0) :: rest, k => if k0 = k then some v0 else findVal rest k

/-- Assignment `results[k] = v` (in-place update preserving insertion
order, appending when the key is new). -/
def setVal : Record → String → Val → Record
  | [], k, v => [(k, v)]
  | (k0, v0) :: rest, k, v =>
      if k0 = k then (k, v) :: rest else (k0, v0) :: setVal rest k v

/-- Exceptions raised by the modelled code. `alphaInvalid` is the
`AssertionError` of `LoadAlpha.__call__` and carries the file name
interpolated into its message; `notImplemented` carries the
`mask_mode` interpolated into the `NotImplementedError` message. -/
inductive Err where
  | keyError : String → Err
  | typeError : String → Err
  | valueError : String → Err
  | attrError : String → Err
  | alphaInvalid : String → Err
  | notImplemented : String → Err
  deriving DecidableEq, Repr

/-- Model of `mmedit.utils.FileClient(io_backend, **kwargs)`: the
constructed client records its construction arguments; its `get`
method is an external collaborator. -/
structure FileClient where
  backend : String
  kwargs : List (String × String)
  deriving DecidableEq, Repr

/-- Outcome of one `__call__`: the component state after the call,
the sample record after the call (reflecting the in-place mutations
performed before any exception), and the exception if one was
raised. -/
structure CallOut (σ : Type) where
  state : σ
  record : Record
  err : Option Err

/-- State of a `LoadImageFromFile` instance (also used for its
subclasses `LoadImageFromFileList` and `LoadAlpha`, which add no
attributes). -/
structure LoadImageFromFile where
  io_backend : String
  key : String
  flag : String
  save_original_img : Bool
  kwargs : List (String × String)
  file_client : Option FileClient
  deriving DecidableEq, Repr

/-- `LoadImageFromFile.__init__`: stores the arguments and leaves
`file_client` unset. -/
def LoadImageFromFile.init (io_backend key flag : String)
    (save_original_img : Bool) (kwargs : List (String × String)) :
    LoadImageFromFile :=
  { io_backend, key, flag, save_original_img, kwargs, file_client := none }

/-- The guard `if self.file_client is None: self.file_client =
FileClient(self.io_backend, **self.kwargs)` shared by the loaders. -/
def ensureClient (s : LoadImageFromFile) : LoadImageFromFile :=
  match s.file_client with
  | some _ => s
  | none => { s with file_client := some ⟨s.io_backend, s.kwargs⟩ }

/-- `LoadImageFromFile.__call__`.  `decode` is the composition of
`self.file_client.get` with `mmcv.imfrombytes(·, flag=self.flag)`
(both external); `fresh` numbers the arrays it allocates, so that
`img` gets identity `fresh` and `img.copy()` identity `fresh + 1`. -/
def LoadImageFromFile.call (s : LoadImageFromFile)
    (decode : String → NDArray) (fresh : Nat) (r : Record) :
    CallOut LoadImageFromFile :=
  let s := ensureClient s
  match findVal r (s.key ++ "_path") with
  | none => ⟨s, r, some (.keyError (s.key ++ "_path"))⟩
  | some v =>
      let filepath := v.pyStr
      let img := decode filepath
      let img := if img.ndim = 2 then img.expandDims2 else img
      let r := setVal r s.key (.arr fresh img)
      let r := setVal r (s.key ++ "_path") (.vstr filepath)
      let r := setVal r (s.key ++ "_ori_shape") (.shape img.shape)
      let r := if s.save_original_img
        then setVal r ("ori_" ++ s.key) (.arr (fresh + 1) img)
        else r
      ⟨s, r, none⟩

/-- The per-path loop body of `LoadImageFromFileList.__call__`: for
each path, decode, promote 2-D to 3-D, collect the image, its shape
and (when configured) a copy.  Returns the `imgs`, `shapes` and
`ori_imgs` accumulators; identities are numbered from `fresh` in
program order. -/
def processPaths (decode : String → NDArray) (save : Bool) :
    List String → Nat →
    List (Nat × NDArray) × List (List Nat) × List (Nat × NDArray)
  | [], _ => ([], [], [])
  | p :: ps, fresh =>
      let img := decode p
      let img := if img.ndim = 2 then img.expandDims2 else img
      let rest := processPaths decode save ps (fresh + (if save then 2 else 1))
      ((fresh, img) :: rest.1, img.shape :: rest.2.1,
        if save then (fresh + 1, img) :: rest.2.2 else rest.2.2)

/-- `LoadImageFromFileList.__call__`. -/
def LoadImageFromFileList.call (s : LoadImageFromFile)
    (decode : String → NDArray) (fresh : Nat) (r : Record) :
    CallOut LoadImageFromFile :=
  let s := ensureClient s
  match findVal r (s.key ++ "_path") with
  | none => ⟨s, r, some (.keyError (s.key ++ "_path"))⟩
  | some v =>
      match v with
      | .vlist items =>
          let filepaths := items.map PathLike.pyStr
          let acc := processPaths decode s.save_original_img filepaths fresh
          let r := setVal r s.key (.arrList acc.1)
          let r := setVal r (s.key ++ "_path")
            (.vlist (filepaths.map PathLike.str))
          let r := setVal r (s.key ++ "_ori_shape") (.shapeList acc.2.1)
          let r := if s.save_original_img
            then setVal r ("ori_" ++ s.key) (.arrList acc.2.2)
            else r
          ⟨s, r, none⟩
      | _ => ⟨s, r, some (.typeError v.pyType)⟩

/-- `LoadAlpha.__call__`: decodes from `results[f'{self.key}_path']`,
asserts a truthy first dimension, then writes the fixed keys
`alpha`, `img_name`, `ori_alpha`, `ori_shape` and `img_shape`.  Note
that the decoded array is written uncopied under both `alpha` and
`ori_alpha` (identity `fresh` for both) and that no 2-D promotion is
applied. -/
def LoadAlpha.call (s : LoadImageFromFile)
    (decode : String → NDArray) (fresh : Nat) (r : Record) :
    CallOut LoadImageFromFile :=
  let s := ensureClient s
  match findVal r (s.key ++ "_path") with
  | none => ⟨s, r, some (.keyError (s.key ++ "_path"))⟩
  | some v =>
      let filepath := v.pyStr
      let alpha := decode filepath
      let img_name := pathName v.pyStr
      if alpha.shape.headD 0 = 0 then
        ⟨s, r, some (.alphaInvalid img_name)⟩
      else
        let r := setVal r "alpha" (.arr fresh alpha)
        let r := setVal r "img_name" (.vstr img_name)
        let r := setVal r "ori_alpha" (.arr fresh alpha)
        let r := setVal r "ori_shape" (.shape alpha.shape)
        let r := setVal r "img_shape" (.shape alpha.shape)
        ⟨s, r, none⟩

/-- Contract of `np.random.randint(lo, hi)` (modelled external
collaborator): for `lo < hi` it returns a value in `[lo, hi)`
determined here by a `seed` oracle; otherwise it raises
`ValueError: low >= high`. -/
def randint (lo hi seed : Nat) : Except Err Nat :=
  if lo < hi then .ok (lo + seed % (hi - lo))
  else .error (.valueError "low is greater or equal to high")

/-- State of a `RandomLoadResizeBg` instance.  `bg_list` is the
result of `mmcv.scandir(bg_dir)` (external), captured eagerly at
construction. -/
structure RandomLoadResizeBg where
  bg_dir : String
  bg_list : List String
  io_backend : String
  flag : String
  kwargs : List (String × String)
  file_client : Option FileClient
  deriving DecidableEq, Repr

/-- `RandomLoadResizeBg.__init__`: stores the directory, the scanned
listing, the backend options, and leaves `file_client` unset. -/
def RandomLoadResizeBg.init (bg_dir : String) (scanned : List String)
    (io_backend flag : String) (kwargs : List (String × String)) :
    RandomLoadResizeBg :=
  { bg_dir, bg_list := scanned, io_backend, flag, kwargs, file_client := none }

/-- The client guard of `RandomLoadResizeBg.__call__`. -/
def ensureClientBg (s : RandomLoadResizeBg) : RandomLoadResizeBg :=
  match s.file_client with
  | some _ => s
  | none => { s with file_client := some ⟨s.io_backend, s.kwargs⟩ }

/-- `RandomLoadResizeBg.__call__`.  `decode` composes
`self.file_client.get` with `mmcv.imfrombytes`; `resize` is
`mmcv.imresize(·, (w, h), interpolation='bicubic')` (external). -/
def RandomLoadResizeBg.call (s : RandomLoadResizeBg)
    (decode : String → NDArray) (resize : NDArray → Nat → Nat → NDArray)
    (seed fresh : Nat) (r : Record) : CallOut RandomLoadResizeBg :=
  let s := ensureClientBg s
  match findVal r "img_shape" with
  | some (.shape [h, w]) =>
      match randint 0 s.bg_list.length seed with
      | .error e => ⟨s, r, some e⟩
      | .ok idx =>
          let filepath := pathJoin s.bg_dir (s.bg_list.getD idx "")
          let img := decode filepath
          let bg := resize img w h
          ⟨s, setVal r "bg" (.arr fresh bg), none⟩
  | some (.shape _) => ⟨s, r, some (.valueError "unpack")⟩
  | some w => ⟨s, r, some (.typeError w.pyType)⟩
  | none => ⟨s, r, some (.keyError "img_shape")⟩

/-- The `set`-mode attributes installed by `LoadMask._init_info`. -/
structure SetInfo where
  mask_list : List String
  mask_set_size : Nat
  io_backend : String
  flag : String
  file_client_kwargs : List (String × String)
  file_client : Option FileClient
  deriving DecidableEq, Repr

/-- The `set`-mode `mask_config` dict.  `mask_list_file` holds the
lines of the manifest file named by the config (the file system is
an external collaborator, so the file content is the parameter). -/
structure SetConfig where
  mask_list_file : List String
  prefixDir : String
  io_backend : String
  flag : String
  file_client_kwargs : List (String × String)
  deriving DecidableEq, Repr

/-- The manifest-parsing loop of `LoadMask._init_info`: each line is
stripped, split on a space, and the first token joined onto the
prefix directory. -/
def parseMaskList (prefixDir : String) (lines : List String) : List String :=
  lines.map (fun line =>
    pathJoin prefixDir (String.mk ((splitChar ' ' (pyStrip line).data).headD [])))

/-- `LoadMask._init_info` for `mask_mode == 'set'`: the corpus index,
its size, the backend options, and the unset client. -/
def initSetInfo (cfg : SetConfig) : SetInfo :=
  { mask_list := parseMaskList cfg.prefixDir cfg.mask_list_file,
    mask_set_size := (parseMaskList cfg.prefixDir cfg.mask_list_file).length,
    io_backend := cfg.io_backend, flag := cfg.flag,
    file_client_kwargs := cfg.file_client_kwargs, file_client := none }

/-- State of a `LoadMask` instance: the mode, and the `set`-mode
attributes when `_init_info` installed them. -/
structure LoadMask where
  mask_mode : String
  setInfo : Option SetInfo
  deriving DecidableEq, Repr

/-- `LoadMask.__init__` followed by `_init_info`: in `set` mode the
config keys are looked up (a missing config is a `KeyError`) and the
manifest is parsed eagerly; every other mode stores nothing. -/
def LoadMask.init (mask_mode : String) (cfg : Option SetConfig) :
    Except Err LoadMask :=
  if mask_mode = "set" then
    match cfg with
    | none => .error (.keyError "mask_list_file")
    | some c => .ok { mask_mode, setInfo := some (initSetInfo c) }
  else .ok { mask_mode, setInfo := none }

/-- The client guard of `LoadMask._get_random_mask_from_set`. -/
def ensureClientSet (info : SetInfo) : SetInfo :=
  match info.file_client with
  | some _ => info
  | none => { info with
      file_client := some ⟨info.io_backend, info.file_client_kwargs⟩ }

/-- `LoadMask._get_random_mask_from_set`: lazily construct the
client, draw `mask_idx = np.random.randint(0, self.mask_set_size)`,
fetch and decode `self.mask_list[mask_idx]`, and normalize to one
channel (append a unit axis to a 2-D decode, otherwise keep only
channel 0).  Returns the drawn index alongside the mask. -/
def getRandomMaskFromSet (info : SetInfo) (decode : String → NDArray)
    (seed : Nat) : SetInfo × Except Err (Nat × NDArray) :=
  let info := ensureClientSet info
  match randint 0 info.mask_set_size seed with
  | .error e => (info, .error e)
  | .ok mask_idx =>
      let mask := decode (info.mask_list.getD mask_idx "")
      let mask := if mask.ndim = 2 then mask.expandDims2
        else mask.sliceFirstChan
      (info, .ok (mask_idx, mask))

/-- `LoadMask.__call__`.  The three synthesis strategies delegate to
external helpers from `mmedit.core.mask`, supplied as oracles:
`randomBboxO` is the result of `random_bbox(**self.mask_config)`,
`bbox2maskO` that of `bbox2mask(...)`, `irregularO` that of
`get_irregular_mask(...)` and `ffO` that of
`brush_stroke_mask(...)`.  Calling a non-`set` instance in `set`
mode is impossible after `__init__`; the `attrError` branch records
the `AttributeError` Python would raise there. -/
def LoadMask.call (s : LoadMask) (decode : String → NDArray)
    (randomBboxO : Nat × Nat × Nat × Nat) (bbox2maskO irregularO ffO : NDArray)
    (seed fresh : Nat) (r : Record) : CallOut LoadMask :=
  if s.mask_mode = "bbox" then
    let r := setVal r "mask_bbox"
      (.bbox randomBboxO.1 randomBboxO.2.1 randomBboxO.2.2.1 randomBboxO.2.2.2)
    ⟨s, setVal r "mask" (.arr fresh bbox2maskO), none⟩
  else if s.mask_mode = "irregular" then
    ⟨s, setVal r "mask" (.arr fresh irregularO), none⟩
  else if s.mask_mode = "set" then
    match s.setInfo with
    | none => ⟨s, r, some (.attrError "mask_set_size")⟩
    | some info =>
        let out := getRandomMaskFromSet info decode seed
        let s := { s with setInfo := some out.1 }
        match out.2 with
        | .error e => ⟨s, r, some e⟩
        | .ok m => ⟨s, setVal r "mask" (.arr fresh m.2), none⟩
  else if s.mask_mode = "ff" then
    ⟨s, setVal r "mask" (.arr fresh ffO), none⟩
  else
    ⟨s, r, some (.notImplemented s.mask_mode)⟩

theorem findVal_setVal_self (r : Record) (k : String) (v : Val) :
    findVal (setVal r k v) k = some v := by
  induction r with
  | nil => simp [setVal, findVal]
  | cons p rest ih =>
      by_cases h : p.1 = k
      · simp [setVal, findVal, h]
      · simp only [setVal]
        rw [show (p.1, p.2) = p from rfl]
        simp [findVal, h, ih]

theorem findVal_setVal_ne (r : Record) (k k2 : String) (v : Val)
    (h : k ≠ k2) : findVal (setVal r k v) k2 = findVal r k2 := by
  induction r with
  | nil => simp [setVal, findVal, h]
  | cons p rest ih =>
      by_cases hp : p.1 = k
      · simp [setVal, findVal, hp, h, Ne.symm h]
      · simp only [setVal]
        rw [show (p.1, p.2) = p from rfl]
        simp [findVal, hp, ih]

theorem ne_of_length_ne {a b : String} (h : a.length ≠ b.length) : a ≠ b :=
  fun e => h (by rw [e])

theorem key_ne_path (k : String) : k ≠ k ++ "_path" := by
  apply ne_of_length_ne
  rw [String.length_append]
  have h : ("_path" : String).length = 5 := rfl
  omega

theorem key_ne_orishape (k : String) : k ≠ k ++ "_ori_shape" := by
  apply ne_of_length_ne
  rw [String.length_append]
  have h : ("_ori_shape" : String).length = 10 := rfl
  omega

theorem path_ne_orishape (k : String) : k ++ "_path" ≠ k ++ "_ori_shape" := by
  apply ne_of_length_ne
  rw [String.length_append, String.length_append]
  have h1 : ("_path" : String).length = 5 := rfl
  have h2 : ("_ori_shape" : String).length = 10 := rfl
  omega

theorem orik_ne_key (k : String) : "ori_" ++ k ≠ k := by
  apply ne_of_length_ne
  rw [String.length_append]
  have h : ("ori_" : String).length = 4 := rfl
  omega

theorem orik_ne_path (k : String) : "ori_" ++ k ≠ k ++ "_path" := by
  apply ne_of_length_ne
  rw [String.length_append, String.length_append]
  have h1 : ("ori_" : String).length = 4 := rfl
  have h2 : ("_path" : String).length = 5 := rfl
  omega

theorem orik_ne_orishape (k : String) : "ori_" ++ k ≠ k ++ "_ori_shape" := by
  apply ne_of_length_ne
  rw [String.length_append, String.length_append]
  have h1 : ("ori_" : String).length = 4 := rfl
  have h2 : ("_ori_shape" : String).length = 10 := rfl
  omega

theorem ensureClient_key (s : LoadImageFromFile) :
    (ensureClient s).key = s.key := by
  unfold ensureClient; cases s.file_client <;> rfl

theorem ensureClient_save (s : LoadImageFromFile) :
    (ensureClient s).save_original_img = s.save_original_img := by
  unfold ensureClient; cases s.file_client <;> rfl

theorem loadImage_facts
    (s : LoadImageFromFile) (decode : String → NDArray) (fresh : Nat)
    (r : Record) (v : Val) (hv : findVal r (s.key ++ "_path") = some v) :
    (LoadImageFromFile.call s decode fresh r).err = none ∧
    findVal (LoadImageFromFile.call s decode fresh r).record s.key =
      some (.arr fresh (let img0 := decode v.pyStr;
        if img0.ndim = 2 then img0.expandDims2 else img0)) ∧
    findVal (LoadImageFromFile.call s decode fresh r).record (s.key ++ "_path") =
      some (.vstr v.pyStr) ∧
    findVal (LoadImageFromFile.call s decode fresh r).record (s.key ++ "_ori_shape") =
      some (.shape (let img0 := decode v.pyStr;
        if img0.ndim = 2 then img0.expandDims2 else img0).shape) ∧
    (s.save_original_img = true →
      findVal (LoadImageFromFile.call s decode fresh r).record ("ori_" ++ s.key) =
        some (.arr (fresh + 1) (let img0 := decode v.pyStr;
          if img0.ndim = 2 then img0.expandDims2 else img0))) ∧
    (s.save_original_img = false →
      findVal (LoadImageFromFile.call s decode fresh r).record ("ori_" ++ s.key) =
        findVal r ("ori_" ++ s.key)) := by
  simp only [LoadImageFromFile.call, ensureClient_key, ensureClient_save, hv]
  cases hs : s.save_original_img <;>
    simp only [Bool.false_eq_true, if_false, if_true, reduceIte]
  · refine ⟨trivial, ?_, ?_, ?_, ?_, ?_⟩
    · rw [findVal_setVal_ne _ _ _ _ (Ne.symm (key_ne_orishape s.key)),
        findVal_setVal_ne _ _ _ _ (Ne.symm (key_ne_path s.key)),
        findVal_setVal_self]
    · rw [findVal_setVal_ne _ _ _ _ (Ne.symm (path_ne_orishape s.key)),
        findVal_setVal_self]
    · rw [findVal_setVal_self]
    · intro h; simp at h
    · intro h
      rw [findVal_setVal_ne _ _ _ _ (Ne.symm (orik_ne_orishape s.key)),
        findVal_setVal_ne _ _ _ _ (Ne.symm (orik_ne_path s.key)),
        findVal_setVal_ne _ _ _ _ (Ne.symm (orik_ne_key s.key))]
  · refine ⟨trivial, ?_, ?_, ?_, ?_, ?_⟩
    · rw [findVal_setVal_ne _ _ _ _ (orik_ne_key s.key),
        findVal_setVal_ne _ _ _ _ (Ne.symm (key_ne_orishape s.key)),
        findVal_setVal_ne _ _ _ _ (Ne.symm (key_ne_path s.key)),
        findVal_setVal_self]
    · rw [findVal_setVal_ne _ _ _ _ (orik_ne_path s.key),
        findVal_setVal_ne _ _ _ _ (Ne.symm (path_ne_orishape s.key)),
        findVal_setVal_self]
    · rw [findVal_setVal_ne _ _ _ _ (orik_ne_orishape s.key),
        findVal_setVal_self]
    · intro h; rw [findVal_setVal_self]
    · intro h; simp at h

theorem loadAlpha_facts
    (s : LoadImageFromFile) (decode : String → NDArray) (fresh : Nat)
    (r : Record) (v : Val) (hv : findVal r (s.key ++ "_path") = some v)
    (hz : (decode v.pyStr).shape.headD 0 ≠ 0) :
    (LoadAlpha.call s decode fresh r).err = none ∧
    findVal (LoadAlpha.call s decode fresh r).record "alpha" =
      some (.arr fresh (decode v.pyStr)) ∧
    findVal (LoadAlpha.call s decode fresh r).record "img_name" =
      some (.vstr (pathName v.pyStr)) ∧
    findVal (LoadAlpha.call s decode fresh r).record "ori_alpha" =
      some (.arr fresh (decode v.pyStr)) ∧
    findVal (LoadAlpha.call s decode fresh r).record "ori_shape" =
      some (.shape (decode v.pyStr).shape) ∧
    findVal (LoadAlpha.call s decode fresh r).record "img_shape" =
      some (.shape (decode v.pyStr).shape) := by
  simp only [LoadAlpha.call, ensureClient_key, hv, if_neg hz]
  refine ⟨trivial, ?_, ?_, ?_, ?_, ?_⟩
  · rw [findVal_setVal_ne _ _ _ _ (by decide : ("img_shape" : String) ≠ "alpha"),
      findVal_setVal_ne _ _ _ _ (by decide : ("ori_shape" : String) ≠ "alpha"),
      findVal_setVal_ne _ _ _ _ (by decide : ("ori_alpha" : String) ≠ "alpha"),
      findVal_setVal_ne _ _ _ _ (by decide : ("img_name" : String) ≠ "alpha"),
      findVal_setVal_self]
  · rw [findVal_setVal_ne _ _ _ _ (by decide : ("img_shape" : String) ≠ "img_name"),
      findVal_setVal_ne _ _ _ _ (by decide : ("ori_shape" : String) ≠ "img_name"),
      findVal_setVal_ne _ _ _ _ (by decide : ("ori_alpha" : String) ≠ "img_name"),
      findVal_setVal_self]
  · rw [findVal_setVal_ne _ _ _ _ (by decide : ("img_shape" : String) ≠ "ori_alpha"),
      findVal_setVal_ne _ _ _ _ (by decide : ("ori_shape" : String) ≠ "ori_alpha"),
      findVal_setVal_self]
  · rw [findVal_setVal_ne _ _ _ _ (by decide : ("img_shape" : String) ≠ "ori_shape"),
      findVal_setVal_self]
  · rw [findVal_setVal_self]

theorem loadAlpha_error_facts
    (s : LoadImageFromFile) (decode : String → NDArray) (fresh : Nat)
    (r : Record) (v : Val) (hv : findVal r (s.key ++ "_path") = some v)
    (hz : (decode v.pyStr).shape.headD 0 = 0) :
    (LoadAlpha.call s decode fresh r).err =
      some (.alphaInvalid (pathName v.pyStr)) ∧
    (LoadAlpha.call s decode fresh r).record = r := by
  simp only [LoadAlpha.call, ensureClient_key, hv, if_pos hz]
  exact ⟨trivial, trivial⟩

/-- C5: for every sample record containing `{key}_path`, a call to
`LoadImageFromFile` writes the decoded (2-D-promoted) array under
`{key}`, overwrites `{key}_path` with the string form of the path,
sets `{key}_ori_shape` to the decoded shape, and writes a defensive
copy (a distinct identity, `fresh + 1`) under `ori_{key}` exactly
when `save_original_img` is true. -/
theorem load_image_contract
    (s : LoadImageFromFile) (decode : String → NDArray) (fresh : Nat)
    (r : Record) (v : Val) (hv : findVal r (s.key ++ "_path") = some v) :
    (LoadImageFromFile.call s decode fresh r).err = none ∧
    findVal (LoadImageFromFile.call s decode fresh r).record s.key =
      some (.arr fresh (let img0 := decode v.pyStr;
        if img0.ndim = 2 then img0.expandDims2 else img0)) ∧
    findVal (LoadImageFromFile.call s decode fresh r).record (s.key ++ "_path") =
      some (.vstr v.pyStr) ∧
    findVal (LoadImageFromFile.call s decode fresh r).record (s.key ++ "_ori_shape") =
      some (.shape (let img0 := decode v.pyStr;
        if img0.ndim = 2 then img0.expandDims2 else img0).shape) ∧
    (s.save_original_img = true →
      findVal (LoadImageFromFile.call s decode fresh r).record ("ori_" ++ s.key) =
        some (.arr (fresh + 1) (let img0 := decode v.pyStr;
          if img0.ndim = 2 then img0.expandDims2 else img0))) ∧
    (s.save_original_img = false →
      findVal (LoadImageFromFile.call s decode fresh r).record ("ori_" ++ s.key) =
        findVal r ("ori_" ++ s.key)) :=
  loadImage_facts s decode fresh r v hv

theorem load_image_contract_witness :
    findVal [("gt_path", Val.vstr "x.png")] ("gt" ++ "_path") =
      some (.vstr "x.png") ∧
    findVal (LoadImageFromFile.call
        (LoadImageFromFile.init "disk" "gt" "color" true [])
        (fun _ => ⟨[2, 2], [1, 2, 3, 4]⟩) 0
        [("gt_path", Val.vstr "x.png")]).record "gt" =
      some (.arr 0 ⟨[2, 2, 1], [1, 2, 3, 4]⟩) ∧
    findVal (LoadImageFromFile.call
        (LoadImageFromFile.init "disk" "gt" "color" true [])
        (fun _ => ⟨[2, 2], [1, 2, 3, 4]⟩) 0
        [("gt_path", Val.vstr "x.png")]).record "ori_gt" =
      some (.arr 1 ⟨[2, 2, 1], [1, 2, 3, 4]⟩) :=
  ⟨rfl,
    (load_image_contract (LoadImageFromFile.init "disk" "gt" "color" true [])
      (fun _ => ⟨[2, 2], [1, 2, 3, 4]⟩) 0
      [("gt_path", Val.vstr "x.png")] (Val.vstr "x.png") rfl).2.1,
    (load_image_contract (LoadImageFromFile.init "disk" "gt" "color" true [])
      (fun _ => ⟨[2, 2], [1, 2, 3, 4]⟩) 0
      [("gt_path", Val.vstr "x.png")] (Val.vstr "x.png") rfl).2.2.2.2.1 rfl⟩

/-- C7: when the decoded alpha has first dimension 0, the
`LoadAlpha` call fails with the assertion error naming the final
path segment of the input path, and the sample record is returned
unchanged (no keys written). -/
theorem alpha_invalid_height_error
    (s : LoadImageFromFile) (decode : String → NDArray) (fresh : Nat)
    (r : Record) (v : Val) (hv : findVal r (s.key ++ "_path") = some v)
    (hz : (decode v.pyStr).shape.headD 0 = 0) :
    (LoadAlpha.call s decode fresh r).err =
      some (.alphaInvalid (pathName v.pyStr)) ∧
    (LoadAlpha.call s decode fresh r).record = r :=
  loadAlpha_error_facts s decode fresh r v hv hz

theorem alpha_invalid_height_error_witness :
    findVal [("alpha_path", Val.vstr "data/bad.png")] ("alpha" ++ "_path") =
      some (.vstr "data/bad.png") ∧
    ((fun _ => (⟨[0, 5], []⟩ : NDArray)) "data/bad.png").shape.headD 0 = 0 ∧
    (LoadAlpha.call (LoadImageFromFile.init "disk" "alpha" "grayscale" false [])
        (fun _ => ⟨[0, 5], []⟩) 0
        [("alpha_path", Val.vstr "data/bad.png")]).err =
      some (.alphaInvalid "bad.png") ∧
    (LoadAlpha.call (LoadImageFromFile.init "disk" "alpha" "grayscale" false [])
        (fun _ => ⟨[0, 5], []⟩) 0
        [("alpha_path", Val.vstr "data/bad.png")]).record =
      [("alpha_path", Val.vstr "data/bad.png")] :=
  ⟨rfl, rfl,
    (alpha_invalid_height_error
      (LoadImageFromFile.init "disk" "alpha" "grayscale" false [])
      (fun _ => ⟨[0, 5], []⟩) 0 [("alpha_path", Val.vstr "data/bad.png")]
      (Val.vstr "data/bad.png") rfl rfl).1,
    (alpha_invalid_height_error
      (LoadImageFromFile.init "disk" "alpha" "grayscale" false [])
      (fun _ => ⟨[0, 5], []⟩) 0 [("alpha_path", Val.vstr "data/bad.png")]
      (Val.vstr "data/bad.png") rfl rfl).2⟩

/-- C10: on every successful call `LoadAlpha` writes `ori_alpha`
unconditionally (for any value of `save_original_img`) and the value
has the same identity `fresh` as the one under `alpha` (the same
uncopied array), while the base loader writes a copy with the fresh
identity `fresh + 1` under `ori_{key}` only when configured. -/
theorem alpha_ori_alias
    (s : LoadImageFromFile) (decode : String → NDArray) (fresh : Nat)
    (r : Record) (v : Val) (hv : findVal r (s.key ++ "_path") = some v)
    (hz : (decode v.pyStr).shape.headD 0 ≠ 0) :
    findVal (LoadAlpha.call s decode fresh r).record "alpha" =
      some (.arr fresh (decode v.pyStr)) ∧
    findVal (LoadAlpha.call s decode fresh r).record "ori_alpha" =
      some (.arr fresh (decode v.pyStr)) ∧
    (s.save_original_img = true →
      findVal (LoadImageFromFile.call s decode fresh r).record ("ori_" ++ s.key) =
        some (.arr (fresh + 1) (let img0 := decode v.pyStr;
          if img0.ndim = 2 then img0.expandDims2 else img0))) ∧
    (s.save_original_img = false →
      findVal (LoadImageFromFile.call s decode fresh r).record ("ori_" ++ s.key) =
        findVal r ("ori_" ++ s.key)) :=
  ⟨(loadAlpha_facts s decode fresh r v hv hz).2.1,
    (loadAlpha_facts s decode fresh r v hv hz).2.2.2.1,
    (loadImage_facts s decode fresh r v hv).2.2.2.2.1,
    (loadImage_facts s decode fresh r v hv).2.2.2.2.2⟩

theorem alpha_ori_alias_witness :
    findVal [("alpha_path", Val.vstr "a.png")] ("alpha" ++ "_path") =
      some (.vstr "a.png") ∧
    ((fun _ => (⟨[2, 2], [1, 2, 3, 4]⟩ : NDArray)) "a.png").shape.headD 0 ≠ 0 ∧
    findVal (LoadAlpha.call
        (LoadImageFromFile.init "disk" "alpha" "grayscale" false [])
        (fun _ => ⟨[2, 2], [1, 2, 3, 4]⟩) 3
        [("alpha_path", Val.vstr "a.png")]).record "ori_alpha" =
      some (.arr 3 ⟨[2, 2], [1, 2, 3, 4]⟩) :=
  ⟨rfl, by decide,
    (alpha_ori_alias (LoadImageFromFile.init "disk" "alpha" "grayscale" false [])
      (fun _ => ⟨[2, 2], [1, 2, 3, 4]⟩) 3 [("alpha_path", Val.vstr "a.png")]
      (Val.vstr "a.png") rfl (by decide)).2.1⟩

theorem expandDims2_ndim (a : NDArray) (h : a.ndim = 2) :
    a.expandDims2.ndim = 3 := by
  have h' : a.shape.length = 2 := h
  simp [NDArray.expandDims2, NDArray.ndim, h']

theorem expandDims2_shape (a : NDArray) (h : a.ndim = 2) :
    a.expandDims2.shape = a.shape ++ [1] := by
  have h' : a.shape.length = 2 := h
  obtain ⟨x, y, hxy⟩ := List.length_eq_two.mp h'
  simp [NDArray.expandDims2, hxy]

theorem norm_ndim (a : NDArray) (h : a.ndim = 2 ∨ a.ndim = 3) :
    (if a.ndim = 2 then a.expandDims2 else a).ndim = 3 := by
  rcases h with h | h
  · rw [if_pos h]; exact expandDims2_ndim a h
  · rw [if_neg (by omega)]; exact h

theorem processPaths_length (decode : String → NDArray) (save : Bool) :
    ∀ (ps : List String) (fresh : Nat),
      (processPaths decode save ps fresh).1.length = ps.length ∧
      (processPaths decode save ps fresh).2.1.length = ps.length := by
  intro ps
  induction ps with
  | nil => intro fresh; simp [processPaths]
  | cons p rest ih =>
      intro fresh
      simp [processPaths, (ih _).1, (ih _).2]

theorem processPaths_ndim (decode : String → NDArray) (save : Bool)
    (hd : ∀ p, (decode p).ndim = 2 ∨ (decode p).ndim = 3) :
    ∀ (ps : List String) (fresh : Nat),
      ∀ x ∈ (processPaths decode save ps fresh).1, x.2.ndim = 3 := by
  intro ps
  induction ps with
  | nil => intro fresh x hx; simp [processPaths] at hx
  | cons p rest ih =>
      intro fresh x hx
      simp only [processPaths, List.mem_cons] at hx
      rcases hx with hx | hx
      · subst hx; exact norm_ndim (decode p) (hd p)
      · exact ih _ x hx

theorem loadList_facts
    (s : LoadImageFromFile) (decode : String → NDArray) (fresh : Nat)
    (r : Record) (items : List PathLike)
    (hv : findVal r (s.key ++ "_path") = some (.vlist items)) :
    (LoadImageFromFileList.call s decode fresh r).err = none ∧
    findVal (LoadImageFromFileList.call s decode fresh r).record s.key =
      some (.arrList (processPaths decode s.save_original_img
        (items.map PathLike.pyStr) fresh).1) ∧
    findVal (LoadImageFromFileList.call s decode fresh r).record
        (s.key ++ "_path") =
      some (.vlist ((items.map PathLike.pyStr).map PathLike.str)) ∧
    findVal (LoadImageFromFileList.call s decode fresh r).record
        (s.key ++ "_ori_shape") =
      some (.shapeList (processPaths decode s.save_original_img
        (items.map PathLike.pyStr) fresh).2.1) ∧
    (s.save_original_img = true →
      findVal (LoadImageFromFileList.call s decode fresh r).record
          ("ori_" ++ s.key) =
        some (.arrList (processPaths decode s.save_original_img
          (items.map PathLike.pyStr) fresh).2.2)) ∧
    (s.save_original_img = false →
      findVal (LoadImageFromFileList.call s decode fresh r).record
          ("ori_" ++ s.key) = findVal r ("ori_" ++ s.key)) := by
  simp only [LoadImageFromFileList.call, ensureClient_key, ensureClient_save, hv]
  cases hs : s.save_original_img <;>
    simp only [Bool.false_eq_true, if_false, if_true, reduceIte]
  · refine ⟨trivial, ?_, ?_, ?_, ?_, ?_⟩
    · rw [findVal_setVal_ne _ _ _ _ (Ne.symm (key_ne_orishape s.key)),
        findVal_setVal_ne _ _ _ _ (Ne.symm (key_ne_path s.key)),
        findVal_setVal_self]
    · rw [findVal_setVal_ne _ _ _ _ (Ne.symm (path_ne_orishape s.key)),
        findVal_setVal_self]
    · rw [findVal_setVal_self]
    · intro h; simp at h
    · intro h
      rw [findVal_setVal_ne _ _ _ _ (Ne.symm (orik_ne_orishape s.key)),
        findVal_setVal_ne _ _ _ _ (Ne.symm (orik_ne_path s.key)),
        findVal_setVal_ne _ _ _ _ (Ne.symm (orik_ne_key s.key))]
  · refine ⟨trivial, ?_, ?_, ?_, ?_, ?_⟩
    · rw [findVal_setVal_ne _ _ _ _ (orik_ne_key s.key),
        findVal_setVal_ne _ _ _ _ (Ne.symm (key_ne_orishape s.key)),
        findVal_setVal_ne _ _ _ _ (Ne.symm (key_ne_path s.key)),
        findVal_setVal_self]
    · rw [findVal_setVal_ne _ _ _ _ (orik_ne_path s.key),
        findVal_setVal_ne _ _ _ _ (Ne.symm (path_ne_orishape s.key)),
        findVal_setVal_self]
    · rw [findVal_setVal_ne _ _ _ _ (orik_ne_orishape s.key),
        findVal_setVal_self]
    · intro h; rw [findVal_setVal_self]
    · intro h; simp at h

theorem loadList_typeerror
    (s : LoadImageFromFile) (decode : String → NDArray) (fresh : Nat)
    (r : Record) (v : Val)
    (hv : findVal r (s.key ++ "_path") = some v)
    (hnl : ∀ items, v ≠ .vlist items) :
    (LoadImageFromFileList.call s decode fresh r).err =
      some (.typeError v.pyType) ∧
    (LoadImageFromFileList.call s decode fresh r).record = r := by
  cases v with
  | vlist items => exact absurd rfl (hnl items)
  | vpath p => simp [LoadImageFromFileList.call, ensureClient_key, hv, Val.pyType]
  | vstr s0 => simp [LoadImageFromFileList.call, ensureClient_key, hv, Val.pyType]
  | arr i a => simp [LoadImageFromFileList.call, ensureClient_key, hv, Val.pyType]
  | arrList l => simp [LoadImageFromFileList.call, ensureClient_key, hv, Val.pyType]
  | shape l => simp [LoadImageFromFileList.call, ensureClient_key, hv, Val.pyType]
  | shapeList l => simp [LoadImageFromFileList.call, ensureClient_key, hv, Val.pyType]
  | bbox a b c d => simp [LoadImageFromFileList.call, ensureClient_key, hv, Val.pyType]

/-- C2 counterexample: the claim says every loader, including
`LoadAlpha`, always writes an exactly 3-dimensional array, but
`LoadAlpha.__call__` has no 2-D promotion: with a decode result of
shape `(4, 5)` the call succeeds and writes a 2-dimensional array
under `alpha`. -/
theorem loader_output_3d_counterexample :
    (LoadAlpha.call (LoadImageFromFile.init "disk" "alpha" "grayscale" false [])
        (fun _ => ⟨[4, 5], List.replicate 20 7⟩) 0
        [("alpha_path", Val.vstr "a.png")]).err = none ∧
    findVal (LoadAlpha.call
        (LoadImageFromFile.init "disk" "alpha" "grayscale" false [])
        (fun _ => ⟨[4, 5], List.replicate 20 7⟩) 0
        [("alpha_path", Val.vstr "a.png")]).record "alpha" =
      some (.arr 0 ⟨[4, 5], List.replicate 20 7⟩) ∧
    NDArray.ndim ⟨[4, 5], List.replicate 20 7⟩ ≠ 3 :=
  ⟨rfl, rfl, by decide⟩

/-- C2 (amended): the single-image and list loaders always write
exactly 3-dimensional channel-last arrays — a 2-D decode of shape
`(H, W)` is written as `(H, W, 1)` and a 3-D decode is kept — while
the alpha loader writes the decode result unchanged (so a 2-D decode
stays 2-D). -/
theorem loader_output_3d_amended :
    (∀ (s : LoadImageFromFile) (decode : String → NDArray) (fresh : Nat)
        (r : Record) (v : Val),
      findVal r (s.key ++ "_path") = some v →
      ((decode v.pyStr).ndim = 2 ∨ (decode v.pyStr).ndim = 3) →
      ∃ a : NDArray,
        findVal (LoadImageFromFile.call s decode fresh r).record s.key =
          some (.arr fresh a) ∧ a.ndim = 3 ∧
        ((decode v.pyStr).ndim = 2 → a.shape = (decode v.pyStr).shape ++ [1]) ∧
        ((decode v.pyStr).ndim = 3 → a = decode v.pyStr)) ∧
    (∀ (s : LoadImageFromFile) (decode : String → NDArray) (fresh : Nat)
        (r : Record) (items : List PathLike),
      findVal r (s.key ++ "_path") = some (.vlist items) →
      (∀ p, (decode p).ndim = 2 ∨ (decode p).ndim = 3) →
      ∃ l, findVal (LoadImageFromFileList.call s decode fresh r).record s.key =
          some (.arrList l) ∧ ∀ x ∈ l, x.2.ndim = 3) ∧
    (∀ (s : LoadImageFromFile) (decode : String → NDArray) (fresh : Nat)
        (r : Record) (v : Val),
      findVal r (s.key ++ "_path") = some v →
      (decode v.pyStr).shape.headD 0 ≠ 0 →
      findVal (LoadAlpha.call s decode fresh r).record "alpha" =
        some (.arr fresh (decode v.pyStr))) := by
  refine ⟨?_, ?_, ?_⟩
  · intro s decode fresh r v hv hnd
    refine ⟨_, (loadImage_facts s decode fresh r v hv).2.1,
      norm_ndim _ hnd, ?_, ?_⟩
    · intro h2; rw [if_pos h2]; exact expandDims2_shape _ h2
    · intro h3; rw [if_neg (by omega)]
  · intro s decode fresh r items hv hd
    exact ⟨_, (loadList_facts s decode fresh r items hv).2.1,
      processPaths_ndim decode s.save_original_img hd _ fresh⟩
  · intro s decode fresh r v hv hz
    exact (loadAlpha_facts s decode fresh r v hv hz).2.1

theorem loader_output_3d_witness :
    findVal [("gt_path", Val.vstr "x.png")] ("gt" ++ "_path") =
      some (.vstr "x.png") ∧
    (((fun (_ : String) => (⟨[4, 5], List.replicate 20 7⟩ : NDArray))
        (Val.vstr "x.png").pyStr).ndim = 2 ∨
      ((fun (_ : String) => (⟨[4, 5], List.replicate 20 7⟩ : NDArray))
        (Val.vstr "x.png").pyStr).ndim = 3) ∧
    (∃ a : NDArray,
      findVal (LoadImageFromFile.call
          (LoadImageFromFile.init "disk" "gt" "color" false [])
          (fun _ => ⟨[4, 5], List.replicate 20 7⟩) 0
          [("gt_path", Val.vstr "x.png")]).record "gt" =
        some (.arr 0 a) ∧ a.ndim = 3 ∧
      (((fun (_ : String) => (⟨[4, 5], List.replicate 20 7⟩ : NDArray))
          (Val.vstr "x.png").pyStr).ndim = 2 →
        a.shape = ((fun (_ : String) => (⟨[4, 5], List.replicate 20 7⟩ : NDArray))
          (Val.vstr "x.png").pyStr).shape ++ [1]) ∧
      (((fun (_ : String) => (⟨[4, 5], List.replicate 20 7⟩ : NDArray))
          (Val.vstr "x.png").pyStr).ndim = 3 →
        a = (fun (_ : String) => (⟨[4, 5], List.replicate 20 7⟩ : NDArray))
          (Val.vstr "x.png").pyStr)) ∧
    (∃ l, findVal (LoadImageFromFileList.call
          (LoadImageFromFile.init "disk" "gt" "color" false [])
          (fun _ => ⟨[4, 5], List.replicate 20 7⟩) 0
          [("gt_path", Val.vlist [.str "a.png", .str "b.png"])]).record "gt" =
        some (.arrList l) ∧ ∀ x ∈ l, x.2.ndim = 3) :=
  ⟨rfl, Or.inl rfl,
    loader_output_3d_amended.1
      (LoadImageFromFile.init "disk" "gt" "color" false [])
      (fun _ => ⟨[4, 5], List.replicate 20 7⟩) 0
      [("gt_path", Val.vstr "x.png")] (Val.vstr "x.png") rfl (Or.inl rfl),
    loader_output_3d_amended.2.1
      (LoadImageFromFile.init "disk" "gt" "color" false [])
      (fun _ => ⟨[4, 5], List.replicate 20 7⟩) 0
      [("gt_path", Val.vlist [.str "a.png", .str "b.png"])]
      [.str "a.png", .str "b.png"] rfl (fun _ => Or.inl rfl)⟩

/-- C3 counterexample: a `LoadAlpha` built with the inherited default
`key='gt'` reads the path from `gt_path`, not from `alpha_path`: with
both keys present the array written under `alpha` is the decode of
`g.png` (the `gt_path` entry), which differs from the decode of
`a.png` (the `alpha_path` entry). -/
theorem alpha_fixed_read_key_counterexample :
    findVal (LoadAlpha.call (LoadImageFromFile.init "disk" "gt" "color" false [])
        (fun p => if p = "g.png" then ⟨[2, 2], [1, 2, 3, 4]⟩
          else ⟨[3, 3], List.replicate 9 5⟩) 0
        [("gt_path", Val.vstr "g.png"),
          ("alpha_path", Val.vstr "a.png")]).record "alpha" =
      some (.arr 0 ⟨[2, 2], [1, 2, 3, 4]⟩) ∧
    (fun p => if p = "g.png" then (⟨[2, 2], [1, 2, 3, 4]⟩ : NDArray)
      else ⟨[3, 3], List.replicate 9 5⟩) "a.png" ≠ ⟨[2, 2], [1, 2, 3, 4]⟩ :=
  ⟨rfl, by decide⟩

/-- C3 (amended): `LoadAlpha` reads the input path from
`{key}_path` for the construction-time `key` argument (inherited
default `'gt'`), and writes the decoded array under the fixed key
`alpha` together with the fixed `img_name` key. -/
theorem alpha_fixed_write_key_amended
    (s : LoadImageFromFile) (decode : String → NDArray) (fresh : Nat)
    (r : Record) (v : Val) (hv : findVal r (s.key ++ "_path") = some v)
    (hz : (decode v.pyStr).shape.headD 0 ≠ 0) :
    (LoadAlpha.call s decode fresh r).err = none ∧
    findVal (LoadAlpha.call s decode fresh r).record "alpha" =
      some (.arr fresh (decode v.pyStr)) ∧
    findVal (LoadAlpha.call s decode fresh r).record "img_name" =
      some (.vstr (pathName v.pyStr)) ∧
    (LoadImageFromFile.init "disk" "gt" "color" false []).key = "gt" :=
  ⟨(loadAlpha_facts s decode fresh r v hv hz).1,
    (loadAlpha_facts s decode fresh r v hv hz).2.1,
    (loadAlpha_facts s decode fresh r v hv hz).2.2.1, rfl⟩

theorem alpha_fixed_write_key_witness :
    findVal [("alpha_path", Val.vstr "d/a.png")] ("alpha" ++ "_path") =
      some (.vstr "d/a.png") ∧
    findVal (LoadAlpha.call
        (LoadImageFromFile.init "disk" "alpha" "grayscale" false [])
        (fun _ => ⟨[2, 2], [1, 2, 3, 4]⟩) 0
        [("alpha_path", Val.vstr "d/a.png")]).record "alpha" =
      some (.arr 0 ⟨[2, 2], [1, 2, 3, 4]⟩) :=
  ⟨rfl,
    (alpha_fixed_write_key_amended
      (LoadImageFromFile.init "disk" "alpha" "grayscale" false [])
      (fun _ => ⟨[2, 2], [1, 2, 3, 4]⟩) 0
      [("alpha_path", Val.vstr "d/a.png")] (Val.vstr "d/a.png")
      rfl (by decide)).2.1⟩

/-- C6: the list loader fails with a `TypeError` (and leaves the
record unchanged) exactly when the value under `{key}_path` is not a
list; on a list input it succeeds, the output image and shape lists
have the same length as the input path list, and the written path
list holds, position by position, the string form of the input
paths. -/
theorem load_list_contract
    (s : LoadImageFromFile) (decode : String → NDArray) (fresh : Nat)
    (r : Record) (v : Val) (hv : findVal r (s.key ++ "_path") = some v) :
    ((∀ items, v ≠ .vlist items) →
      (LoadImageFromFileList.call s decode fresh r).err =
        some (.typeError v.pyType) ∧
      (LoadImageFromFileList.call s decode fresh r).record = r) ∧
    (∀ items, v = .vlist items →
      (LoadImageFromFileList.call s decode fresh r).err = none ∧
      ∃ imgs shapes outPaths,
        findVal (LoadImageFromFileList.call s decode fresh r).record s.key =
          some (.arrList imgs) ∧
        findVal (LoadImageFromFileList.call s decode fresh r).record
          (s.key ++ "_ori_shape") = some (.shapeList shapes) ∧
        findVal (LoadImageFromFileList.call s decode fresh r).record
          (s.key ++ "_path") = some (.vlist outPaths) ∧
        imgs.length = items.length ∧ shapes.length = items.length ∧
        outPaths.length = items.length ∧
        ∀ i, i < items.length →
          outPaths.getD i (.str "") = .str ((items.getD i (.str "")).pyStr)) := by
  constructor
  · intro hnl
    exact loadList_typeerror s decode fresh r v hv hnl
  · intro items hveq
    subst hveq
    have facts := loadList_facts s decode fresh r items hv
    refine ⟨facts.1, _, _, _, facts.2.1, facts.2.2.2.1, facts.2.2.1,
      ?_, ?_, ?_, ?_⟩
    · rw [(processPaths_length decode s.save_original_img _ fresh).1]
      exact List.length_map _ _
    · rw [(processPaths_length decode s.save_original_img _ fresh).2]
      exact List.length_map _ _
    · simp
    · intro i hi
      have hi1 : i < ((items.map PathLike.pyStr).map PathLike.str).length := by
        simpa using hi
      have hi2 : i < items.length := hi
      rw [List.getD_eq_getElem _ _ hi1, List.getD_eq_getElem _ _ hi2]
      simp

theorem load_list_contract_witness :
    findVal [("gt_path", Val.vlist [.str "a.png", .posix ["d", "b.png"]])]
        ("gt" ++ "_path") =
      some (.vlist [.str "a.png", .posix ["d", "b.png"]]) ∧
    ((Val.vlist [.str "a.png", .posix ["d", "b.png"]]) =
      Val.vlist [.str "a.png", .posix ["d", "b.png"]]) ∧
    ((LoadImageFromFileList.call
        (LoadImageFromFile.init "disk" "gt" "color" false [])
        (fun _ => ⟨[4, 5], List.replicate 20 7⟩) 0
        [("gt_path", Val.vlist [.str "a.png", .posix ["d", "b.png"]])]).err =
        none ∧
      ∃ imgs shapes outPaths,
        findVal (LoadImageFromFileList.call
            (LoadImageFromFile.init "disk" "gt" "color" false [])
            (fun _ => ⟨[4, 5], List.replicate 20 7⟩) 0
            [("gt_path", Val.vlist [.str "a.png", .posix ["d", "b.png"]])]).record
            "gt" = some (.arrList imgs) ∧
        findVal (LoadImageFromFileList.call
            (LoadImageFromFile.init "disk" "gt" "color" false [])
            (fun _ => ⟨[4, 5], List.replicate 20 7⟩) 0
            [("gt_path", Val.vlist [.str "a.png", .posix ["d", "b.png"]])]).record
            ("gt" ++ "_ori_shape") = some (.shapeList shapes) ∧
        findVal (LoadImageFromFileList.call
            (LoadImageFromFile.init "disk" "gt" "color" false [])
            (fun _ => ⟨[4, 5], List.replicate 20 7⟩) 0
            [("gt_path", Val.vlist [.str "a.png", .posix ["d", "b.png"]])]).record
            ("gt" ++ "_path") = some (.vlist outPaths) ∧
        imgs.length = [PathLike.str "a.png", PathLike.posix ["d", "b.png"]].length ∧
        shapes.length = [PathLike.str "a.png", PathLike.posix ["d", "b.png"]].length ∧
        outPaths.length = [PathLike.str "a.png", PathLike.posix ["d", "b.png"]].length ∧
        ∀ i, i < [PathLike.str "a.png", PathLike.posix ["d", "b.png"]].length →
          outPaths.getD i (.str "") =
            .str (([PathLike.str "a.png", PathLike.posix ["d", "b.png"]].getD i
              (.str "")).pyStr)) :=
  ⟨rfl, rfl,
    (load_list_contract (LoadImageFromFile.init "disk" "gt" "color" false [])
      (fun _ => ⟨[4, 5], List.replicate 20 7⟩) 0
      [("gt_path", Val.vlist [.str "a.png", .posix ["d", "b.png"]])]
      (Val.vlist [.str "a.png", .posix ["d", "b.png"]]) rfl).2
      [.str "a.png", .posix ["d", "b.png"]] rfl⟩

theorem getRandomMaskFromSet_snd (info : SetInfo) (decode : String → NDArray)
    (seed : Nat) :
    (getRandomMaskFromSet info decode seed).2 =
      match randint 0 info.mask_set_size seed with
      | .error e => .error e
      | .ok idx =>
          .ok (idx,
            if (decode (info.mask_list.getD idx "")).ndim = 2 then
              (decode (info.mask_list.getD idx "")).expandDims2
            else (decode (info.mask_list.getD idx "")).sliceFirstChan) := by
  unfold getRandomMaskFromSet ensureClientSet
  cases h : info.file_client <;>
    cases h2 : randint 0 info.mask_set_size seed <;> simp [h, h2]

theorem getRandomMaskFromSet_pos (info : SetInfo) (decode : String → NDArray)
    (seed : Nat) (hpos : 0 < info.mask_set_size) :
    (getRandomMaskFromSet info decode seed).2 =
      .ok (seed % info.mask_set_size,
        if (decode (info.mask_list.getD (seed % info.mask_set_size) "")).ndim = 2
        then (decode (info.mask_list.getD (seed % info.mask_set_size) "")).expandDims2
        else (decode (info.mask_list.getD
          (seed % info.mask_set_size) "")).sliceFirstChan) := by
  rw [getRandomMaskFromSet_snd]
  simp [randint, hpos]

theorem getRandomMaskFromSet_zero (info : SetInfo) (decode : String → NDArray)
    (seed : Nat) (h0 : info.mask_set_size = 0) :
    (getRandomMaskFromSet info decode seed).2 =
      .error (.valueError "low is greater or equal to high") := by
  rw [getRandomMaskFromSet_snd]
  simp [randint, h0]

theorem getD_map_range (n : Nat) (f : Nat → Nat) (t : Nat) (ht : t < n) :
    ((List.range n).map f).getD t 0 = f t := by
  rw [List.getD_eq_getElem _ _ (by simpa using ht), List.getElem_map,
    List.getElem_range]

theorem spatial_index_lt {i j h w : Nat} (hi : i < h) (hj : j < w) :
    i * w + j < h * w :=
  calc i * w + j < i * w + w := by omega
    _ = (i + 1) * w := by ring
    _ ≤ h * w := Nat.mul_le_mul_right w hi

theorem sliceFirstChan_of_shape (a : NDArray) (h w c : Nat)
    (hs : a.shape = [h, w, c]) :
    a.sliceFirstChan = ⟨[h, w, min 1 c], firstChanData w c h a.data⟩ := by
  unfold NDArray.sliceFirstChan
  rw [hs]

theorem at3_of_shape (a : NDArray) (hh w c : Nat)
    (hs : a.shape = [hh, w, c]) (i j k : Nat) :
    a.at3 i j k = a.data.getD (i * (w * c) + j * c + k) 0 := by
  unfold NDArray.at3
  rw [hs]

theorem initSetInfo_size (cfg : SetConfig) :
    (initSetInfo cfg).mask_set_size = cfg.mask_list_file.length := by
  simp [initSetInfo, parseMaskList]

/-- C1 counterexample: constructing a `set`-mode `LoadMask` over an
empty manifest does not fail — `_init_info` performs no emptiness
check, so `__init__` succeeds with `mask_set_size = 0` — and the
error (`np.random.randint(0, 0)` raising `ValueError`) only surfaces
at the first draw. -/
theorem set_empty_manifest_counterexample :
    LoadMask.init "set" (some ⟨[], "/pfx", "disk", "unchanged", []⟩) =
      .ok ⟨"set", some ⟨[], 0, "disk", "unchanged", [], none⟩⟩ ∧
    (LoadMask.call ⟨"set", some ⟨[], 0, "disk", "unchanged", [], none⟩⟩
        (fun _ => ⟨[], []⟩) (0, 0, 0, 0) ⟨[], []⟩ ⟨[], []⟩ ⟨[], []⟩
        0 0 []).err =
      some (.valueError "low is greater or equal to high") :=
  ⟨rfl, rfl⟩

/-- C1 (amended): for the `set` strategy every drawn index lies in
`[0, N)` where `N` is the number of manifest entries; a `LoadMask`
over an empty manifest is constructed without error, and the failure
(a `ValueError` from `np.random.randint(0, 0)`) occurs at the first
draw instead of at construction. -/
theorem set_draw_bounds_amended (cfg : SetConfig) (decode : String → NDArray)
    (seed : Nat) :
    LoadMask.init "set" (some cfg) = .ok ⟨"set", some (initSetInfo cfg)⟩ ∧
    (initSetInfo cfg).mask_set_size = cfg.mask_list_file.length ∧
    (0 < cfg.mask_list_file.length →
      ∃ idx mask,
        (getRandomMaskFromSet (initSetInfo cfg) decode seed).2 =
          .ok (idx, mask) ∧
        idx < cfg.mask_list_file.length) ∧
    (cfg.mask_list_file.length = 0 →
      (getRandomMaskFromSet (initSetInfo cfg) decode seed).2 =
        .error (.valueError "low is greater or equal to high")) := by
  have hsz := initSetInfo_size cfg
  refine ⟨rfl, hsz, ?_, ?_⟩
  · intro hpos
    refine ⟨seed % (initSetInfo cfg).mask_set_size, _,
      getRandomMaskFromSet_pos _ decode seed ?_, ?_⟩
    · rw [hsz]; exact hpos
    · rw [hsz]; exact Nat.mod_lt _ hpos
  · intro h0
    exact getRandomMaskFromSet_zero _ decode seed (by rw [hsz]; exact h0)

theorem set_draw_bounds_witness :
    0 < (["m1.png", "m2.png"] : List String).length ∧
    (∃ idx mask,
      (getRandomMaskFromSet
          (initSetInfo ⟨["m1.png", "m2.png"], "/p", "disk", "unchanged", []⟩)
          (fun _ => ⟨[2, 2], [0, 1, 2, 3]⟩) 7).2 = .ok (idx, mask) ∧
      idx < (["m1.png", "m2.png"] : List String).length) :=
  ⟨by decide,
    (set_draw_bounds_amended ⟨["m1.png", "m2.png"], "/p", "disk", "unchanged", []⟩
      (fun _ => ⟨[2, 2], [0, 1, 2, 3]⟩) 7).2.2.1 (by decide)⟩

/-- C4: every successful `set`-mode draw yields a single-channel
mask: the drawn index is in range, a 2-D decode gains a trailing
unit channel with its data untouched, a multi-channel decode keeps
exactly its first channel (position by position, never averaged),
and the spatial dimensions are those of the decoded file (no
resizing). -/
theorem set_mask_single_channel
    (info : SetInfo) (decode : String → NDArray) (seed : Nat)
    (hpos : 0 < info.mask_set_size) :
    ∃ idx mask, (getRandomMaskFromSet info decode seed).2 = .ok (idx, mask) ∧
      idx < info.mask_set_size ∧
      (∀ h w, (decode (info.mask_list.getD idx "")).shape = [h, w] →
        mask.shape = [h, w, 1] ∧
        mask.data = (decode (info.mask_list.getD idx "")).data) ∧
      (∀ h w c, (decode (info.mask_list.getD idx "")).shape = [h, w, c] →
        1 ≤ c →
        mask.shape = [h, w, 1] ∧
        ∀ i j, i < h → j < w →
          mask.at3 i j 0 = (decode (info.mask_list.getD idx "")).at3 i j 0) := by
  refine ⟨seed % info.mask_set_size,
    if (decode (info.mask_list.getD (seed % info.mask_set_size) "")).ndim = 2 then
      (decode (info.mask_list.getD (seed % info.mask_set_size) "")).expandDims2
    else (decode (info.mask_list.getD (seed % info.mask_set_size) "")).sliceFirstChan,
    getRandomMaskFromSet_pos info decode seed hpos,
    Nat.mod_lt _ hpos, ?_, ?_⟩
  · intro h w hs
    have hnd : (decode (info.mask_list.getD
        (seed % info.mask_set_size) "")).ndim = 2 := by
      show (decode (info.mask_list.getD
        (seed % info.mask_set_size) "")).shape.length = 2
      rw [hs]; rfl
    rw [if_pos hnd]
    constructor
    · rw [expandDims2_shape _ hnd, hs]; rfl
    · rfl
  · intro h w c hs hc
    have hnd : (decode (info.mask_list.getD
        (seed % info.mask_set_size) "")).ndim = 3 := by
      show (decode (info.mask_list.getD
        (seed % info.mask_set_size) "")).shape.length = 3
      rw [hs]; rfl
    rw [if_neg (by omega)]
    have hmin : min 1 c = 1 := Nat.min_eq_left hc
    rw [sliceFirstChan_of_shape _ h w c hs, hmin]
    constructor
    · rfl
    · intro i j hi hj
      rw [at3_of_shape _ h w 1 rfl i j 0, at3_of_shape _ h w c hs i j 0]
      show (firstChanData w c h
        (decode (info.mask_list.getD (seed % info.mask_set_size) "")).data).getD
          (i * (w * 1) + j * 1 + 0) 0 = _
      unfold firstChanData
      simp only [Nat.mul_one, Nat.add_zero]
      rw [getD_map_range _ _ _ (spatial_index_lt hi hj)]
      congr 1
      ring

theorem set_mask_single_channel_witness :
    0 < (⟨["m.png"], 1, "disk", "unchanged", [], none⟩ : SetInfo).mask_set_size ∧
    (∃ idx mask,
      (getRandomMaskFromSet (⟨["m.png"], 1, "disk", "unchanged", [], none⟩ : SetInfo)
          (fun _ => ⟨[2, 2, 3], [1, 2, 3, 4, 5, 6, 7, 8, 9, 10, 11, 12]⟩) 5).2 =
        .ok (idx, mask) ∧
      idx < (⟨["m.png"], 1, "disk", "unchanged", [], none⟩ : SetInfo).mask_set_size ∧
      (∀ h w, ((fun (_ : String) =>
          (⟨[2, 2, 3], [1, 2, 3, 4, 5, 6, 7, 8, 9, 10, 11, 12]⟩ : NDArray))
          ((⟨["m.png"], 1, "disk", "unchanged", [], none⟩ : SetInfo).mask_list.getD
            idx "")).shape = [h, w] →
        mask.shape = [h, w, 1] ∧
        mask.data = ((fun (_ : String) =>
          (⟨[2, 2, 3], [1, 2, 3, 4, 5, 6, 7, 8, 9, 10, 11, 12]⟩ : NDArray))
          ((⟨["m.png"], 1, "disk", "unchanged", [], none⟩ : SetInfo).mask_list.getD
            idx "")).data) ∧
      (∀ h w c, ((fun (_ : String) =>
          (⟨[2, 2, 3], [1, 2, 3, 4, 5, 6, 7, 8, 9, 10, 11, 12]⟩ : NDArray))
          ((⟨["m.png"], 1, "disk", "unchanged", [], none⟩ : SetInfo).mask_list.getD
            idx "")).shape = [h, w, c] →
        1 ≤ c →
        mask.shape = [h, w, 1] ∧
        ∀ i j, i < h → j < w →
          mask.at3 i j 0 = ((fun (_ : String) =>
            (⟨[2, 2, 3], [1, 2, 3, 4, 5, 6, 7, 8, 9, 10, 11, 12]⟩ : NDArray))
            ((⟨["m.png"], 1, "disk", "unchanged", [], none⟩ : SetInfo).mask_list.getD
              idx "")).at3 i j 0)) :=
  ⟨by decide,
    set_mask_single_channel ⟨["m.png"], 1, "disk", "unchanged", [], none⟩
      (fun _ => ⟨[2, 2, 3], [1, 2, 3, 4, 5, 6, 7, 8, 9, 10, 11, 12]⟩) 5
      (by decide)⟩

/-- C8: calling a `LoadMask` whose `mask_mode` is none of `bbox`,
`irregular`, `ff`, `set` raises `NotImplementedError` naming the
requested mode, and the sample record is returned unchanged (in
particular no `mask` key is written). -/
theorem mask_unknown_mode_error
    (s : LoadMask) (decode : String → NDArray)
    (randomBboxO : Nat × Nat × Nat × Nat) (bbox2maskO irregularO ffO : NDArray)
    (seed fresh : Nat) (r : Record)
    (h1 : s.mask_mode ≠ "bbox") (h2 : s.mask_mode ≠ "irregular")
    (h3 : s.mask_mode ≠ "set") (h4 : s.mask_mode ≠ "ff") :
    (LoadMask.call s decode randomBboxO bbox2maskO irregularO ffO
        seed fresh r).err = some (.notImplemented s.mask_mode) ∧
    (LoadMask.call s decode randomBboxO bbox2maskO irregularO ffO
        seed fresh r).record = r := by
  simp [LoadMask.call, h1, h2, h3, h4]

theorem mask_unknown_mode_witness :
    ("foo" : String) ≠ "bbox" ∧ ("foo" : String) ≠ "irregular" ∧
    ("foo" : String) ≠ "set" ∧ ("foo" : String) ≠ "ff" ∧
    (LoadMask.call ⟨"foo", none⟩ (fun _ => ⟨[], []⟩) (0, 0, 0, 0)
        ⟨[], []⟩ ⟨[], []⟩ ⟨[], []⟩ 0 0 [("k", Val.vstr "v")]).err =
      some (.notImplemented "foo") ∧
    (LoadMask.call ⟨"foo", none⟩ (fun _ => ⟨[], []⟩) (0, 0, 0, 0)
        ⟨[], []⟩ ⟨[], []⟩ ⟨[], []⟩ 0 0 [("k", Val.vstr "v")]).record =
      [("k", Val.vstr "v")] :=
  ⟨by decide, by decide, by decide, by decide,
    (mask_unknown_mode_error ⟨"foo", none⟩ (fun _ => ⟨[], []⟩) (0, 0, 0, 0)
      ⟨[], []⟩ ⟨[], []⟩ ⟨[], []⟩ 0 0 [("k", Val.vstr "v")]
      (by decide) (by decide) (by decide) (by decide)).1,
    (mask_unknown_mode_error ⟨"foo", none⟩ (fun _ => ⟨[], []⟩) (0, 0, 0, 0)
      ⟨[], []⟩ ⟨[], []⟩ ⟨[], []⟩ 0 0 [("k", Val.vstr "v")]
      (by decide) (by decide) (by decide) (by decide)).2⟩

theorem call_state_img (s : LoadImageFromFile) (d : String → NDArray)
    (fresh : Nat) (r : Record) :
    (LoadImageFromFile.call s d fresh r).state = ensureClient s := by
  simp only [LoadImageFromFile.call]
  cases h : findVal r ((ensureClient s).key ++ "_path") <;> simp [h]

theorem call_state_list (s : LoadImageFromFile) (d : String → NDArray)
    (fresh : Nat) (r : Record) :
    (LoadImageFromFileList.call s d fresh r).state = ensureClient s := by
  simp only [LoadImageFromFileList.call]
  cases h : findVal r ((ensureClient s).key ++ "_path")
  · simp [h]
  case some v => cases v <;> simp [h]

theorem call_state_alpha (s : LoadImageFromFile) (d : String → NDArray)
    (fresh : Nat) (r : Record) :
    (LoadAlpha.call s d fresh r).state = ensureClient s := by
  simp only [LoadAlpha.call]
  cases h : findVal r ((ensureClient s).key ++ "_path")
  · simp [h]
  · simp only [h]
    split <;> rfl

theorem call_state_bg (s : RandomLoadResizeBg) (d : String → NDArray)
    (rz : NDArray → Nat → Nat → NDArray) (seed fresh : Nat) (r : Record) :
    (RandomLoadResizeBg.call s d rz seed fresh r).state = ensureClientBg s := by
  simp only [RandomLoadResizeBg.call]
  cases h : findVal r "img_shape"
  · simp [h]
  case some v =>
    cases v <;> simp [h]
    case shape l =>
      rcases l with _ | ⟨a, l⟩
      · simp
      rcases l with _ | ⟨b, l⟩
      · simp
      rcases l with _ | ⟨c, l⟩
      · cases h2 : randint 0 (ensureClientBg s).bg_list.length seed <;> simp [h2]
      · simp

theorem getRandomMaskFromSet_fst (info : SetInfo) (d : String → NDArray)
    (seed : Nat) :
    (getRandomMaskFromSet info d seed).1 = ensureClientSet info := by
  unfold getRandomMaskFromSet
  cases h2 : randint 0 (ensureClientSet info).mask_set_size seed <;> simp [h2]

/-- C9: every component owning a storage client (the three loaders,
the background sampler, and set-mode `LoadMask`) starts with
`file_client` unset; the first call constructs the client from the
stored backend and keyword options, and a call on a state whose
client is already constructed keeps that exact client (the guard is
a no-op). -/
theorem lazy_client_once :
    (∀ b k f sv kw, (LoadImageFromFile.init b k f sv kw).file_client = none) ∧
    (∀ bd sc b f kw, (RandomLoadResizeBg.init bd sc b f kw).file_client = none) ∧
    (∀ cfg : SetConfig, (initSetInfo cfg).file_client = none) ∧
    (∀ b k f sv kw d fr r,
      (LoadImageFromFile.call ⟨b, k, f, sv, kw, none⟩ d fr r).state.file_client =
        some ⟨b, kw⟩) ∧
    (∀ b k f sv kw c d fr r,
      (LoadImageFromFile.call ⟨b, k, f, sv, kw, some c⟩ d fr r).state.file_client =
        some c) ∧
    (∀ b k f sv kw d fr r,
      (LoadImageFromFileList.call ⟨b, k, f, sv, kw, none⟩ d fr r).state.file_client =
        some ⟨b, kw⟩) ∧
    (∀ b k f sv kw c d fr r,
      (LoadImageFromFileList.call ⟨b, k, f, sv, kw, some c⟩ d fr r).state.file_client =
        some c) ∧
    (∀ b k f sv kw d fr r,
      (LoadAlpha.call ⟨b, k, f, sv, kw, none⟩ d fr r).state.file_client =
        some ⟨b, kw⟩) ∧
    (∀ b k f sv kw c d fr r,
      (LoadAlpha.call ⟨b, k, f, sv, kw, some c⟩ d fr r).state.file_client =
        some c) ∧
    (∀ bd bl b f kw d rz sd fr r,
      (RandomLoadResizeBg.call ⟨bd, bl, b, f, kw, none⟩ d rz sd fr r).state.file_client =
        some ⟨b, kw⟩) ∧
    (∀ bd bl b f kw c d rz sd fr r,
      (RandomLoadResizeBg.call ⟨bd, bl, b, f, kw, some c⟩ d rz sd fr r).state.file_client =
        some c) ∧
    (∀ ml n b f kw d sd,
      (getRandomMaskFromSet ⟨ml, n, b, f, kw, none⟩ d sd).1.file_client =
        some ⟨b, kw⟩) ∧
    (∀ ml n b f kw c d sd,
      (getRandomMaskFromSet ⟨ml, n, b, f, kw, some c⟩ d sd).1.file_client =
        some c) := by
  refine ⟨fun _ _ _ _ _ => rfl, fun _ _ _ _ _ => rfl, fun _ => rfl,
    ?_, ?_, ?_, ?_, ?_, ?_, ?_, ?_, ?_, ?_⟩
  · intro b k f sv kw d fr r; rw [call_state_img]; rfl
  · intro b k f sv kw c d fr r; rw [call_state_img]; rfl
  · intro b k f sv kw d fr r; rw [call_state_list]; rfl
  · intro b k f sv kw c d fr r; rw [call_state_list]; rfl
  · intro b k f sv kw d fr r; rw [call_state_alpha]; rfl
  · intro b k f sv kw c d fr r; rw [call_state_alpha]; rfl
  · intro bd bl b f kw d rz sd fr r; rw [call_state_bg]; rfl
  · intro bd bl b f kw c d rz sd fr r; rw [call_state_bg]; rfl
  · intro ml n b f kw d sd; rw [getRandomMaskFromSet_fst]; rfl
  · intro ml n b f kw c d sd; rw [getRandomMaskFromSet_fst]; rfl

end Loading
